import Mathlib

/-!
Verification of truongdq/chainer's custom recurrent layers.

Shallow embedding of the layer definitions in
`chainer/links/connection/{embed_id,gru,lstm}.py` and the optimizer setup
contract exercised by
`tests/chainer_tests/optimizers_tests/test_optimizers_by_linear_model.py`.

Tensors are modelled as lists of rows of integers (exact stand-ins for the float entries; no claim involves division); the framework's
activation primitives (sigmoid, tanh, the fused LSTM gating function) are
parameters of the forward functions, since the repository composes them as
opaque differentiable operations.  The filesystem touched by the ad hoc
save/load methods is modelled as an association list from filenames to
serialized blobs.
-/

namespace Chainer

/-- A matrix as a list of rows of integer entries (models a 2-D float array). -/
abbrev Mat := List (List ℤ)

def matRows (m : Mat) : Nat := m.length

def matCols (m : Mat) : Nat := (m.headD []).length

def dotProd (a b : List ℤ) : ℤ := (List.zipWith (fun u v => u * v) a b).sum

def vecAdd (a b : List ℤ) : List ℤ := List.zipWith (fun u v => u + v) a b

def matVec (w : Mat) (v : List ℤ) : List ℤ := w.map (fun row => dotProd row v)

def matAdd (a b : Mat) : Mat := List.zipWith vecAdd a b

/-- Elementwise product of two matrices (chainer's `*` on variables). -/
def matHadamard (a b : Mat) : Mat :=
  List.zipWith (fun r s => List.zipWith (fun u v => u * v) r s) a b

/-- Elementwise `1 - x` (chainer's broadcast `1 - z`). -/
def matOneSub (a : Mat) : Mat := a.map (fun r => r.map (fun v => 1 - v))

/-- Apply a scalar function elementwise (models sigmoid/tanh on a variable). -/
def matMap (f : ℤ → ℤ) (a : Mat) : Mat := a.map (fun r => r.map f)

def zeroMat (r c : Nat) : Mat := List.replicate r (List.replicate c 0)

/-- The framework's `chainer.links.Linear`: weight of shape
`(out_features, in_features)` and an optional bias (absent for `nobias=True`). -/
structure Linear where
  W : Mat
  b : Option (List ℤ)
deriving DecidableEq

/-- Forward of the linear link on a batch (one row per sample). -/
def Linear.apply (l : Linear) (x : Mat) : Mat :=
  x.map (fun xi =>
    match l.b with
    | some bv => vecAdd (matVec l.W xi) bv
    | none => matVec l.W xi)

/-- Floating point precisions a tensor can carry. -/
inductive Dtype
  | float32
  | float64
deriving DecidableEq

/-- A chainer variable: a dtype tag plus the underlying 2-D data. -/
structure Tensor where
  dtype : Dtype
  data : Mat
deriving DecidableEq

def Tensor.add (a b : Tensor) : Tensor := ⟨a.dtype, matAdd a.data b.data⟩

/-- Models `xp.zeros((rows, cols), dtype=d)`. -/
def Tensor.zeros (r c : Nat) (d : Dtype) : Tensor := ⟨d, zeroMat r c⟩

def Linear.applyT (l : Linear) (x : Tensor) : Tensor := ⟨x.dtype, l.apply x.data⟩

/-- A serialized blob on disk: either a pickled weight matrix (EmbedID) or a
serialized linear sub-layer. -/
inductive Blob
  | mat (m : Mat)
  | lin (l : Linear)
deriving DecidableEq

/-- The filesystem: an association list from filenames to blobs; writing
prepends, reading takes the most recent entry. -/
abbrev FS := List (String × Blob)

def fsLookup : FS → String → Option Blob
  | [], _ => none
  | (k, v) :: rest, q => if k = q then some v else fsLookup rest q

/-- Models `os.path.exists`. -/
def fsExists (fs : FS) (k : String) : Bool := (fsLookup fs k).isSome

/-- Modelled from the spec: the linear link's `save` (the file
`chainer/links/connection/linear.py` is not under `src/`); per spec section 6
each parameter group is written as one flat binary blob under the given
filename via generic object serialization. -/
def Linear.save (l : Linear) (fname : String) (fs : FS) : FS :=
  (fname, Blob.lin l) :: fs

/-- Modelled from the spec: the linear link's `load` (the file
`chainer/links/connection/linear.py` is not under `src/`); it deserializes the
blob written by `Linear.save` and restores the parameters unchanged. -/
def Linear.load (fs : FS) (fname : String) : Option Linear :=
  match fsLookup fs fname with
  | some (Blob.lin l) => some l
  | _ => none

/-- Substring test on char lists (needle occurs starting at the front). -/
def charsLead : List Char → List Char → Bool
  | [], _ => true
  | _ :: _, [] => false
  | a :: as, b :: bs => a = b && charsLead as bs

/-- Substring test on char lists (needle occurs anywhere). -/
def charsContain (needle : List Char) : List Char → Bool
  | [] => charsLead needle []
  | c :: cs => charsLead needle (c :: cs) || charsContain needle cs

/-- Python's `needle in s` on strings. -/
def strContains (needle s : String) : Bool := charsContain needle.data s.data

/-! ## EmbedID (`chainer/links/connection/embed_id.py`) -/

/-- The embedding layer: it owns only the `(in_size, out_size)`-shaped weight
matrix `W` (vocabulary size rows, embedding width columns). -/
structure EmbedID where
  W : Mat
deriving DecidableEq

/-- `EmbedID.__init__`: allocates `W` of shape `(in_size, out_size)` and fills
it with standard-normal samples, here supplied by the ambient source `rand`. -/
def EmbedID.init (in_size out_size : Nat) (rand : Nat → Nat → Mat) : EmbedID :=
  ⟨rand in_size out_size⟩

/-- Vocabulary size of the layer: the number of rows of `W`. -/
def EmbedID.vocabulary_size (e : EmbedID) : Nat := matRows e.W

/-- Embedding width of the layer: the number of columns of `W`. -/
def EmbedID.embedding_size (e : EmbedID) : Nat := matCols e.W

def w2vecMarker : String := "w2vec"

/-- `EmbedID.save`: pickles `W` to `fname` unless the filename contains the
pretrained-vector marker; returns `True` either way. -/
def EmbedID.save (e : EmbedID) (fname : String) (fs : FS) : FS × Bool :=
  if strContains w2vecMarker fname then (fs, true)
  else ((fname, Blob.mat e.W) :: fs, true)

/-- The `(in_size, out_size)` pair handed to the constructor inside
`EmbedID.load`: the source unpacks `out_size, in_size = W.shape` and then
calls `cls(in_size, out_size)`, so the constructor receives
`(W.shape[1], W.shape[0])`. -/
def EmbedID.loadCtorSizes (W : Mat) : Nat × Nat := (matCols W, matRows W)

/-- `EmbedID.load`: unpickles the matrix, constructs a fresh layer with the
sizes of `EmbedID.loadCtorSizes`, then overwrites its weight with the loaded
matrix. -/
def EmbedID.load (rand : Nat → Nat → Mat) (fs : FS) (fname : String) :
    Option EmbedID :=
  match fsLookup fs fname with
  | some (Blob.mat W) =>
      let sizes := EmbedID.loadCtorSizes W
      let model := EmbedID.init sizes.1 sizes.2 rand
      some { model with W := W }
  | _ => none

/-! ## GRU (`chainer/links/connection/gru.py`) -/

/-- The GRU cell: six linear sub-layers. -/
structure GRU where
  W_r : Linear
  U_r : Linear
  W_z : Linear
  U_z : Linear
  W : Linear
  U : Linear
deriving DecidableEq

/-- Bundle of six linear sub-layers, as passed through `init_param`. -/
abbrev GRUParams := Linear × Linear × Linear × Linear × Linear × Linear

/-- A fresh `linear.Linear(n_units, n_units)`: random weight from the ambient
source (indexed so the six draws are independent) and a zero bias. -/
def freshSquareLinear (i n_units : Nat) (rand : Nat → Nat → Nat → Mat) : Linear :=
  ⟨rand i n_units n_units, some (List.replicate n_units 0)⟩

/-- `GRU.__init__`: six fresh `n_units × n_units` linear layers when no
`init_param` is given, otherwise the six supplied sub-layers. -/
def GRU.init (n_units : Nat) (init_param : Option GRUParams)
    (rand : Nat → Nat → Nat → Mat) : GRU :=
  match init_param with
  | none =>
      ⟨freshSquareLinear 0 n_units rand, freshSquareLinear 1 n_units rand,
       freshSquareLinear 2 n_units rand, freshSquareLinear 3 n_units rand,
       freshSquareLinear 4 n_units rand, freshSquareLinear 5 n_units rand⟩
  | some (wr, ur, wz, uz, w, u) => ⟨wr, ur, wz, uz, w, u⟩

/-- `GRU.save`: saves the six sub-layers under per-sub-layer suffixes. -/
def GRU.save (g : GRU) (fname : String) (fs : FS) : FS :=
  Linear.save g.U (fname ++ ".U")
    (Linear.save g.W (fname ++ ".W")
      (Linear.save g.U_z (fname ++ ".U_z")
        (Linear.save g.W_z (fname ++ ".W_z")
          (Linear.save g.U_r (fname ++ ".U_r")
            (Linear.save g.W_r (fname ++ ".W_r") fs)))))

/-- `GRU.load`: loads the six sub-layers and rebuilds the cell with the
placeholder `n_units = 1`. -/
def GRU.load (fs : FS) (fname : String) (rand : Nat → Nat → Nat → Mat) :
    Option GRU :=
  match Linear.load fs (fname ++ ".W_r"), Linear.load fs (fname ++ ".U_r"),
      Linear.load fs (fname ++ ".W_z"), Linear.load fs (fname ++ ".U_z"),
      Linear.load fs (fname ++ ".W"), Linear.load fs (fname ++ ".U") with
  | some wr, some ur, some wz, some uz, some w, some u =>
      some (GRU.init 1 (some (wr, ur, wz, uz, w, u)) rand)
  | _, _, _, _, _, _ => none

/-- `GRU.__call__`: the gated-recurrence update.  `sig` and `tnh` stand for
the framework's sigmoid and tanh primitives, applied elementwise. -/
def GRU.call (sig tnh : ℤ → ℤ) (g : GRU) (h x : Mat) : Mat :=
  let r := matMap sig (matAdd (g.W_r.apply x) (g.U_r.apply h))
  let z := matMap sig (matAdd (g.W_z.apply x) (g.U_z.apply h))
  let h_bar := matMap tnh (matAdd (g.W.apply x) (g.U.apply (matHadamard r h)))
  matAdd (matHadamard (matOneSub z) h) (matHadamard z h_bar)

/-! ## Stateful LSTM (`chainer/links/connection/lstm.py`) -/

/-- The framework's fused LSTM gating primitive `lstm.lstm`: from the cell
state and the gate pre-activations it yields the new cell and hidden states.
It is opaque to this repository, so the forward functions take it as a
parameter. -/
abbrev LstmPrim := Tensor → Tensor → Tensor × Tensor

/-- The stateful LSTM cell: upward and lateral linear sub-layers, the declared
hidden size, and the transient cell / hidden states (absent = `None`). -/
structure LSTM where
  upward : Linear
  lateral : Linear
  state_size : Nat
  c : Option Tensor
  h : Option Tensor
deriving DecidableEq

def assertInSizeMsg : String := "assert in_size == init_upward.W.data.shape[1]"

def assertOutSizeMsg : String := "assert out_size == init_upward.W.data.shape[0] / 4"

/-- `LSTM.__init__`: with both pre-built sub-layers the shape asserts run
before any state is created; otherwise fresh upward (with bias) and lateral
(`nobias=True`) layers are built.  Either way the state ends up reset. -/
def LSTM.init (in_size out_size : Nat) (init_upward init_lateral : Option Linear)
    (rand : Nat → Nat → Nat → Mat) : Except String LSTM :=
  match init_upward, init_lateral with
  | some u, some lat =>
      if in_size = matCols u.W then
        if out_size = matRows u.W / 4 then
          Except.ok ⟨u, lat, out_size, none, none⟩
        else Except.error assertOutSizeMsg
      else Except.error assertInSizeMsg
  | _, _ =>
      Except.ok ⟨⟨rand 0 (4 * out_size) in_size, some (List.replicate (4 * out_size) 0)⟩,
        ⟨rand 1 (4 * out_size) out_size, none⟩, out_size, none, none⟩

/-- `LSTM.reset_state`: sets `c` and `h` to `None`. -/
def LSTM.reset_state (l : LSTM) : LSTM := { l with c := none, h := none }

/-- `LSTM.save`: saves the two sub-layers under suffixed filenames. -/
def LSTM.save (l : LSTM) (fname : String) (fs : FS) : FS :=
  Linear.save l.lateral (fname ++ ".lateral")
    (Linear.save l.upward (fname ++ ".upward") fs)

/-- `LSTM.load`: loads the sub-layers, recovers the sizes from `upward`'s
weight shape, and rebuilds the cell through the checked constructor. -/
def LSTM.load (fs : FS) (fname : String) (rand : Nat → Nat → Nat → Mat) :
    Option LSTM :=
  match Linear.load fs (fname ++ ".upward"), Linear.load fs (fname ++ ".lateral") with
  | some u, some lat =>
      let out_size := matRows u.W / 4
      let in_size := matCols u.W
      (LSTM.init in_size out_size (some u) (some lat) rand).toOption
  | _, _ => none

/-- `LSTM.__call__`: gate pre-activations from `upward(x)` plus, when a
previous hidden state exists, `lateral(h)`; the cell state is zero-initialized
on first use; the fused primitive produces and stores the new states. -/
def LSTM.call (f : LstmPrim) (l : LSTM) (x : Tensor) : LSTM × Tensor :=
  let lstm_in := l.upward.applyT x
  let lstm_in2 :=
    match l.h with
    | some hPrev => lstm_in.add (l.lateral.applyT hPrev)
    | none => lstm_in
  let c0 :=
    match l.c with
    | some cPrev => cPrev
    | none => Tensor.zeros x.data.length l.state_size x.dtype
  let p := f c0 lstm_in2
  ({ l with c := some p.1, h := some p.2 }, p.2)

/-! ## Attention-augmented LSTM decoder (`chainer/links/connection/lstm.py`) -/

/-- The decoder: like `LSTM` plus an optional attention sub-layer (the
`attention` attribute may be absent) and the `use_attention` flag. -/
structure LSTM_Emphasis_Decoder where
  upward : Linear
  lateral : Linear
  attention : Option Linear
  use_attention : Bool
  state_size : Nat
  c : Option Tensor
  h : Option Tensor
deriving DecidableEq

/-- `LSTM_Emphasis_Decoder.__init__`: the same shape asserts as `LSTM` on the
pre-built path; a truthy `init_attention` forces `use_attention = True`, while
`init_attention = None` keeps the caller's flag but registers no attention
child.  On the fresh path the attention sub-layer exists iff `use_attention`. -/
def LSTM_Emphasis_Decoder.init (in_size out_size : Nat) (use_attention : Bool)
    (init_upward init_lateral init_attention : Option Linear)
    (rand : Nat → Nat → Nat → Mat) : Except String LSTM_Emphasis_Decoder :=
  match init_upward, init_lateral with
  | some u, some lat =>
      if in_size = matCols u.W then
        if out_size = matRows u.W / 4 then
          match init_attention with
          | some att => Except.ok ⟨u, lat, some att, true, out_size, none, none⟩
          | none => Except.ok ⟨u, lat, none, use_attention, out_size, none, none⟩
        else Except.error assertOutSizeMsg
      else Except.error assertInSizeMsg
  | _, _ =>
      let u : Linear :=
        ⟨rand 0 (4 * out_size) in_size, some (List.replicate (4 * out_size) 0)⟩
      let lat : Linear := ⟨rand 1 (4 * out_size) out_size, none⟩
      if use_attention then
        Except.ok ⟨u, lat,
          some ⟨rand 2 (4 * out_size) in_size, some (List.replicate (4 * out_size) 0)⟩,
          use_attention, out_size, none, none⟩
      else Except.ok ⟨u, lat, none, use_attention, out_size, none, none⟩

/-- `LSTM_Emphasis_Decoder.reset_state`: sets `c` and `h` to `None`. -/
def LSTM_Emphasis_Decoder.reset_state (d : LSTM_Emphasis_Decoder) :
    LSTM_Emphasis_Decoder := { d with c := none, h := none }

/-- `LSTM_Emphasis_Decoder.load`: loads upward/lateral, loads the attention
sub-layer only if its file exists, and rebuilds through the constructor with
the defaulted `use_attention = True`. -/
def LSTM_Emphasis_Decoder.load (fs : FS) (fname : String)
    (rand : Nat → Nat → Nat → Mat) : Option LSTM_Emphasis_Decoder :=
  match Linear.load fs (fname ++ ".upward"), Linear.load fs (fname ++ ".lateral") with
  | some u, some lat =>
      let attention :=
        if fsExists fs (fname ++ ".attention") then Linear.load fs (fname ++ ".attention")
        else none
      let out_size := matRows u.W / 4
      let in_size := matCols u.W
      (LSTM_Emphasis_Decoder.init in_size out_size true (some u) (some lat)
        attention rand).toOption
  | _, _ => none

/-- Runtime failures of the decoder's forward call: looking up a missing
`attention` attribute, or applying the attention layer to `None`. -/
inductive CallErr
  | attributeMissing
  | noneInput
deriving DecidableEq

/-- `LSTM_Emphasis_Decoder.__call__`: when `use_attention` is set the call
evaluates `self.attention(src_hidden)` (which fails on a missing attribute or
a `None` input); the attention projection, when present, is added to the gate
pre-activations before the fused LSTM step. -/
def LSTM_Emphasis_Decoder.call (f : LstmPrim) (d : LSTM_Emphasis_Decoder)
    (x : Tensor) (src_hidden : Option Tensor) :
    Except CallErr (LSTM_Emphasis_Decoder × Tensor) :=
  let lstm_in := d.upward.applyT x
  let attention_res : Except CallErr (Option Tensor) :=
    if d.use_attention then
      match d.attention with
      | none => Except.error CallErr.attributeMissing
      | some att =>
          match src_hidden with
          | none => Except.error CallErr.noneInput
          | some sh => Except.ok (some (att.applyT sh))
    else Except.ok none
  match attention_res with
  | Except.error e => Except.error e
  | Except.ok attention_in =>
      let lstm_in2 :=
        match d.h with
        | some hPrev => lstm_in.add (d.lateral.applyT hPrev)
        | none => lstm_in
      let c0 :=
        match d.c with
        | some cPrev => cPrev
        | none => Tensor.zeros x.data.length d.state_size x.dtype
      let p :=
        match attention_in with
        | some a => f c0 (lstm_in2.add a)
        | none => f c0 lstm_in2
      Except.ok ({ d with c := some p.1, h := some p.2 }, p.2)

/-- Forgets the attention data: the plain-LSTM view of a decoder. -/
def LSTM_Emphasis_Decoder.toLSTM (d : LSTM_Emphasis_Decoder) : LSTM :=
  ⟨d.upward, d.lateral, d.state_size, d.c, d.h⟩

/-! ## Optimizer setup (`tests/.../test_optimizers_by_linear_model.py`) -/

/-- The optimizer implementations exercised by the test file. -/
inductive OptimizerKind
  | adaDelta
  | adaGrad
  | adam
  | momentumSGD
  | nesterovAG
  | rmsProp
  | rmsPropGraves
  | sgd
deriving DecidableEq

/-- An argument passed to `optimizer.setup`: either a chainer link (whose
payload is irrelevant here) or a plain string. -/
inductive SetupTarget
  | link
  | str (s : String)
deriving DecidableEq

/-- A raised Python exception: whether it is a `TypeError`, and its message. -/
structure PyError where
  isTypeError : Bool
  msg : String
deriving DecidableEq

def optimizerSetupMsg : String := "optimization target must be a link"

/-- Modelled from the spec: `Optimizer.setup` lives in `chainer/optimizer.py`,
which is not under `src/`; per spec sections 7 and 8 it rejects a non-link
target with a `TypeError` whose message matches
"optimization target must be a link", identically for every optimizer
implementation, and accepts a link. -/
def Optimizer.setup (k : OptimizerKind) (t : SetupTarget) : Except PyError Unit :=
  match k, t with
  | _, SetupTarget.link => Except.ok ()
  | _, SetupTarget.str _ => Except.error ⟨true, optimizerSetupMsg⟩

/-! ## Concrete exemplar values used by witnesses and counterexamples -/

/-- A `4 × 1` weight matrix of ones. -/
def wEx : Mat := [ [1], [1], [1], [1] ]

/-- A `4 × 1` linear layer without bias. -/
def linEx : Linear := ⟨wEx, none⟩

/-- A `4 × 1` linear layer with a zero bias. -/
def linExB : Linear := ⟨wEx, some [0, 0, 0, 0]⟩

/-- A `1 × 1` linear layer with bias, for square GRU sub-layers. -/
def linSqEx : Linear := ⟨[ [1] ], some [0]⟩

/-- A one-sample, one-feature float32 input batch. -/
def tenEx : Tensor := ⟨Dtype.float32, [ [1] ]⟩

/-- A concrete instantiation of the fused LSTM primitive: it returns the cell
state unchanged and emits the gate pre-activations as the hidden state, which
makes differences in the pre-activations observable. -/
def fEx : LstmPrim := fun c a => (c, a)

/-- A degenerate random source (never consulted on the load paths). -/
def randEx : Nat → Nat → Nat → Mat := fun _ _ _ => []

/-- A degenerate random source for `EmbedID.init`. -/
def randEx2 : Nat → Nat → Mat := fun _ _ => []

/-! ## Helper lemmas -/

theorem strAppend_left_inj (s a b : String) : (s ++ a = s ++ b) ↔ a = b := by
  constructor
  · intro h
    have h3 : s.data ++ a.data = s.data ++ b.data := by
      simpa [String.data_append] using congrArg String.data h
    have h4 : a.data = b.data := List.append_cancel_left h3
    cases a; cases b; exact congrArg String.mk h4
  · intro h; rw [h]

theorem fsLookup_head (k : String) (v : Blob) (fs : FS) :
    fsLookup ((k, v) :: fs) k = some v := by
  simp [fsLookup]

theorem fsLookup_skip {k q : String} (h : ¬ k = q) (v : Blob) (fs : FS) :
    fsLookup ((k, v) :: fs) q = fsLookup fs q := by
  simp [fsLookup, h]

/-! ## Claims -/

/-- C3: for every GRU cell, the forward call on previous hidden state `h` and
input `x` returns `(1 - z) ⊙ h + z ⊙ h_bar` where `r = σ(W_r x + U_r h)`,
`z = σ(W_z x + U_z h)` and `h_bar = tanh(W x + U (r ⊙ h))`, each gate computed
through the linear-layer primitive (weight and bias). -/
theorem gru_forward_matches_spec (sig tnh : ℤ → ℤ) (g : GRU) (h x : Mat) :
    GRU.call sig tnh g h x =
      matAdd
        (matHadamard (matOneSub (matMap sig (matAdd (g.W_z.apply x) (g.U_z.apply h)))) h)
        (matHadamard (matMap sig (matAdd (g.W_z.apply x) (g.U_z.apply h)))
          (matMap tnh (matAdd (g.W.apply x)
            (g.U.apply (matHadamard
              (matMap sig (matAdd (g.W_r.apply x) (g.U_r.apply h))) h))))) := rfl

/-- C4: for every stateful LSTM cell, the forward call computes gate
pre-activations as `upward(x)`, adds `lateral(h)` exactly when a previous
hidden state exists, initializes the cell state to a zero tensor of shape
`(batch size of x, hidden size)` with `x`'s dtype exactly when no cell state
exists yet, feeds pre-activations and cell state to the fused primitive, and
stores and returns the new hidden state. -/
theorem lstm_forward_matches_spec (f : LstmPrim) (l : LSTM) (x : Tensor) :
    LSTM.call f l x =
      (let pre : Tensor :=
        match l.h with
        | some hPrev => Tensor.add (l.upward.applyT x) (l.lateral.applyT hPrev)
        | none => l.upward.applyT x
      let c0 : Tensor :=
        match l.c with
        | some cPrev => cPrev
        | none =>
            ⟨x.dtype, List.replicate x.data.length (List.replicate l.state_size 0)⟩
      (({ l with c := some (f c0 pre).1, h := some (f c0 pre).2 } : LSTM),
        (f c0 pre).2)) := rfl

/-- C6: `reset_state` clears hidden and cell state to absent on both
LSTM-family cells, and the next forward call after `reset_state` feeds the
fused primitive a zero cell state sized by the new input's batch size,
independent of any prior sequence's state. -/
theorem reset_state_reinitializes :
    (∀ l : LSTM, (LSTM.reset_state l).c = none ∧ (LSTM.reset_state l).h = none) ∧
    (∀ d : LSTM_Emphasis_Decoder,
      (LSTM_Emphasis_Decoder.reset_state d).c = none ∧
      (LSTM_Emphasis_Decoder.reset_state d).h = none) ∧
    (∀ (f : LstmPrim) (l : LSTM) (x : Tensor),
      LSTM.call f (LSTM.reset_state l) x =
        (let p := f (Tensor.zeros x.data.length l.state_size x.dtype)
          (l.upward.applyT x)
         (({ l with c := some p.1, h := some p.2 } : LSTM), p.2))) ∧
    (∀ (f : LstmPrim) (d : LSTM_Emphasis_Decoder) (x : Tensor) (src : Option Tensor),
      d.use_attention = false →
      LSTM_Emphasis_Decoder.call f (LSTM_Emphasis_Decoder.reset_state d) x src =
        Except.ok
          (let p := f (Tensor.zeros x.data.length d.state_size x.dtype)
            (d.upward.applyT x)
           (({ d with c := some p.1, h := some p.2 } : LSTM_Emphasis_Decoder), p.2))) := by
  refine ⟨fun l => ⟨rfl, rfl⟩, fun d => ⟨rfl, rfl⟩, fun f l x => rfl, fun f d x src hua => ?_⟩
  simp [LSTM_Emphasis_Decoder.call, LSTM_Emphasis_Decoder.reset_state, hua]

/-- A decoder without attention, carrying stale state from a prior sequence. -/
def dExNoAtt : LSTM_Emphasis_Decoder :=
  ⟨linEx, linEx, none, false, 1, some tenEx, some tenEx⟩

/-- Witness for C6 at a concrete decoder, input and primitive. -/
theorem reset_state_reinitializes_witness :
    LSTM_Emphasis_Decoder.call fEx (LSTM_Emphasis_Decoder.reset_state dExNoAtt) tenEx none =
      Except.ok
        (let p := fEx (Tensor.zeros tenEx.data.length dExNoAtt.state_size tenEx.dtype)
          (dExNoAtt.upward.applyT tenEx)
         (({ dExNoAtt with c := some p.1, h := some p.2 } : LSTM_Emphasis_Decoder), p.2)) :=
  reset_state_reinitializes.2.2.2 fEx dExNoAtt tenEx none rfl

/-- C2 (amended): when `use_attention` is off, the decoder's forward call
succeeds and its emitted output and updated states coincide with the plain
stateful LSTM that has the same upward/lateral weights and the same state. -/
theorem decoder_attention_disabled_matches_lstm (f : LstmPrim)
    (d : LSTM_Emphasis_Decoder) (x : Tensor) (src : Option Tensor)
    (hua : d.use_attention = false) :
    LSTM_Emphasis_Decoder.call f d x src =
      Except.ok
        (({ d with c := (LSTM.call f d.toLSTM x).1.c,
                   h := (LSTM.call f d.toLSTM x).1.h } : LSTM_Emphasis_Decoder),
          (LSTM.call f d.toLSTM x).2) := by
  simp [LSTM_Emphasis_Decoder.call, LSTM.call, LSTM_Emphasis_Decoder.toLSTM, hua]

/-- A decoder with attention enabled and an attention sub-layer present. -/
def dExAtt : LSTM_Emphasis_Decoder := ⟨linEx, linEx, some linEx, true, 1, none, none⟩

/-- Counterexample to C2 as stated: with attention enabled and no source
hidden vector supplied, the forward call raises (the attention layer is
applied to `None`) instead of behaving like the plain LSTM with the same
weights and state. -/
theorem decoder_no_src_hidden_cex :
    LSTM_Emphasis_Decoder.call fEx dExAtt tenEx none = Except.error CallErr.noneInput ∧
    ¬ (LSTM_Emphasis_Decoder.call fEx dExAtt tenEx none =
        Except.ok
          (({ dExAtt with c := (LSTM.call fEx dExAtt.toLSTM tenEx).1.c,
                          h := (LSTM.call fEx dExAtt.toLSTM tenEx).1.h } :
              LSTM_Emphasis_Decoder),
            (LSTM.call fEx dExAtt.toLSTM tenEx).2)) := by
  refine ⟨rfl, fun h => ?_⟩
  rw [show LSTM_Emphasis_Decoder.call fEx dExAtt tenEx none =
      Except.error CallErr.noneInput from rfl] at h
  exact Except.noConfusion h

/-- Witness for the amended C2 at a concrete attention-off decoder. -/
theorem decoder_attention_disabled_matches_lstm_witness :
    LSTM_Emphasis_Decoder.call fEx dExNoAtt tenEx none =
      Except.ok
        (({ dExNoAtt with c := (LSTM.call fEx dExNoAtt.toLSTM tenEx).1.c,
                          h := (LSTM.call fEx dExNoAtt.toLSTM tenEx).1.h } :
            LSTM_Emphasis_Decoder),
          (LSTM.call fEx dExNoAtt.toLSTM tenEx).2) :=
  decoder_attention_disabled_matches_lstm fEx dExNoAtt tenEx none rfl

/-- C7: constructing an LSTM or the attention decoder from pre-built
upward/lateral sub-layers checks, before any state is created, that the
upward layer's input width equals `in_size` and that its output width divided
by 4 equals `out_size`; matching shapes succeed (producing the cell with the
given sub-layers and reset state) and mismatching shapes fail on the
corresponding assertion. -/
theorem init_shape_checks :
    (∀ (in_size out_size : Nat) (u lat : Linear) (rand : Nat → Nat → Nat → Mat),
      (in_size = matCols u.W ∧ out_size = matRows u.W / 4 →
        LSTM.init in_size out_size (some u) (some lat) rand =
          Except.ok ⟨u, lat, out_size, none, none⟩) ∧
      (¬ in_size = matCols u.W →
        LSTM.init in_size out_size (some u) (some lat) rand =
          Except.error assertInSizeMsg) ∧
      (in_size = matCols u.W → ¬ out_size = matRows u.W / 4 →
        LSTM.init in_size out_size (some u) (some lat) rand =
          Except.error assertOutSizeMsg)) ∧
    (∀ (in_size out_size : Nat) (ua : Bool) (u lat : Linear) (att : Option Linear)
        (rand : Nat → Nat → Nat → Mat),
      (in_size = matCols u.W ∧ out_size = matRows u.W / 4 →
        LSTM_Emphasis_Decoder.init in_size out_size ua (some u) (some lat) att rand =
          Except.ok
            (match att with
             | some a => ⟨u, lat, some a, true, out_size, none, none⟩
             | none => ⟨u, lat, none, ua, out_size, none, none⟩)) ∧
      (¬ in_size = matCols u.W →
        LSTM_Emphasis_Decoder.init in_size out_size ua (some u) (some lat) att rand =
          Except.error assertInSizeMsg) ∧
      (in_size = matCols u.W → ¬ out_size = matRows u.W / 4 →
        LSTM_Emphasis_Decoder.init in_size out_size ua (some u) (some lat) att rand =
          Except.error assertOutSizeMsg)) := by
  constructor
  · intro in_size out_size u lat rand
    refine ⟨fun hm => ?_, fun h1 => ?_, fun h1 h2 => ?_⟩
    · simp [LSTM.init, hm.1, hm.2]
    · simp [LSTM.init, h1]
    · simp [LSTM.init, h1, h2]
  · intro in_size out_size ua u lat att rand
    refine ⟨fun hm => ?_, fun h1 => ?_, fun h1 h2 => ?_⟩
    · cases att <;> simp [LSTM_Emphasis_Decoder.init, hm.1, hm.2]
    · simp [LSTM_Emphasis_Decoder.init, h1]
    · simp [LSTM_Emphasis_Decoder.init, h1, h2]

/-- Witness for C7: a `4 × 1` upward layer passes the checks with
`(in_size, out_size) = (1, 1)` and fails them with `in_size = 2`. -/
theorem init_shape_checks_witness :
    LSTM.init 1 1 (some linEx) (some linEx) randEx =
      Except.ok ⟨linEx, linEx, 1, none, none⟩ ∧
    LSTM.init 2 1 (some linEx) (some linEx) randEx =
      Except.error assertInSizeMsg ∧
    LSTM_Emphasis_Decoder.init 1 1 true (some linEx) (some linEx) none randEx =
      Except.ok ⟨linEx, linEx, none, true, 1, none, none⟩ ∧
    LSTM_Emphasis_Decoder.init 1 2 true (some linEx) (some linEx) none randEx =
      Except.error assertOutSizeMsg :=
  ⟨(init_shape_checks.1 1 1 linEx linEx randEx).1 (by decide),
   (init_shape_checks.1 2 1 linEx linEx randEx).2.1 (by decide),
   (init_shape_checks.2 1 1 true linEx linEx none randEx).1 (by decide),
   (init_shape_checks.2 1 2 true linEx linEx none randEx).2.2 (by decide) (by decide)⟩

/-- C10: when no `fname ++ ".attention"` file exists, the reconstructed
decoder has `use_attention = True` while owning no attention sub-layer, so
every forward call on it fails with a missing-attribute error instead of
behaving like a plain LSTM. -/
theorem decoder_load_missing_attention (fs : FS) (fname : String) (u lat : Linear)
    (rand : Nat → Nat → Nat → Mat)
    (hu : Linear.load fs (fname ++ ".upward") = some u)
    (hl : Linear.load fs (fname ++ ".lateral") = some lat)
    (hna : fsExists fs (fname ++ ".attention") = false) :
    LSTM_Emphasis_Decoder.load fs fname rand =
      some ⟨u, lat, none, true, matRows u.W / 4, none, none⟩ ∧
    (∀ (f : LstmPrim) (x : Tensor) (src : Option Tensor),
      LSTM_Emphasis_Decoder.call f
        ⟨u, lat, none, true, matRows u.W / 4, none, none⟩ x src =
        Except.error CallErr.attributeMissing) := by
  constructor
  · simp [LSTM_Emphasis_Decoder.load, hu, hl, hna, LSTM_Emphasis_Decoder.init,
      Except.toOption]
  · intro f x src
    rfl

/-- A filesystem holding a saved decoder without an attention file. -/
def fsExNoAtt : FS :=
  Linear.save linEx ( "dec" ++ ".lateral") (Linear.save linEx ( "dec" ++ ".upward") [])

/-- Witness for C10 on a concrete two-file filesystem. -/
theorem decoder_load_missing_attention_witness :
    LSTM_Emphasis_Decoder.load fsExNoAtt "dec" randEx =
      some ⟨linEx, linEx, none, true, matRows linEx.W / 4, none, none⟩ ∧
    LSTM_Emphasis_Decoder.call fEx
      ⟨linEx, linEx, none, true, matRows linEx.W / 4, none, none⟩ tenEx none =
      Except.error CallErr.attributeMissing :=
  ⟨(decoder_load_missing_attention fsExNoAtt "dec" linEx linEx randEx
      (by decide) (by decide) (by decide)).1,
   (decoder_load_missing_attention fsExNoAtt "dec" linEx linEx randEx
      (by decide) (by decide) (by decide)).2 fEx tenEx none⟩

/-- C8: `EmbedID.save` with a filename containing the pretrained-vector
marker alters no file yet still returns `True`; with any other filename it
serializes the weight matrix to that single file and also returns `True`. -/
theorem embed_save_spec (e : EmbedID) (fname : String) (fs : FS) :
    (strContains w2vecMarker fname = true → EmbedID.save e fname fs = (fs, true)) ∧
    (strContains w2vecMarker fname = false →
      EmbedID.save e fname fs = ((fname, Blob.mat e.W) :: fs, true)) := by
  constructor
  · intro hm; simp [EmbedID.save, hm]
  · intro hm; simp [EmbedID.save, hm]

/-- A two-column embedding layer (vocabulary 1, embedding width 2). -/
def eEx : EmbedID := ⟨[ [1, 2] ]⟩

/-- Witness for C8 on a marker filename and on a plain filename. -/
theorem embed_save_spec_witness :
    EmbedID.save eEx "model.w2vec" [] = ([], true) ∧
    EmbedID.save eEx "model.emb" [] = ([( "model.emb", Blob.mat eEx.W)], true) :=
  ⟨(embed_save_spec eEx "model.w2vec" []).1 (by decide),
   (embed_save_spec eEx "model.emb" []).2 (by decide)⟩

/-- Counterexample to C1 as stated: for the `1 × 2` weight matrix (vocabulary
size 1, embedding width 2), the constructor inside `load` does not receive
`(vocabulary size, embedding width)`: it receives the pair swapped, `(2, 1)`. -/
theorem embed_load_ctor_order_cex :
    ¬ (EmbedID.loadCtorSizes eEx.W =
        (EmbedID.vocabulary_size eEx, EmbedID.embedding_size eEx)) := by
  decide

/-- C1 (amended): save-then-load on a non-marker filename restores the layer
exactly, so its weight matrix and its effective `(vocabulary_size,
embedding_size)` match the original; however, the constructor inside `load`
receives `(embedding width, vocabulary size)` — the swapped order — the final
sizes matching only because the weight is then overwritten with the loaded
matrix. -/
theorem embed_roundtrip_amended (e : EmbedID) (fname : String) (fs : FS)
    (rand : Nat → Nat → Mat) (hm : strContains w2vecMarker fname = false) :
    EmbedID.load rand (EmbedID.save e fname fs).1 fname = some e ∧
    (EmbedID.load rand (EmbedID.save e fname fs).1 fname).map
        (fun e2 => (e2.vocabulary_size, e2.embedding_size)) =
      some (e.vocabulary_size, e.embedding_size) ∧
    EmbedID.loadCtorSizes e.W = (e.embedding_size, e.vocabulary_size) := by
  have hload : EmbedID.load rand (EmbedID.save e fname fs).1 fname = some e := by
    simp [EmbedID.save, hm, EmbedID.load, fsLookup, EmbedID.init]
  exact ⟨hload, by rw [hload]; rfl, rfl⟩

/-- Witness for the amended C1 on the `1 × 2` layer and a plain filename. -/
theorem embed_roundtrip_amended_witness :
    EmbedID.load randEx2 (EmbedID.save eEx "model.emb" []).1 "model.emb" = some eEx ∧
    (EmbedID.load randEx2 (EmbedID.save eEx "model.emb" []).1 "model.emb").map
        (fun e2 => (e2.vocabulary_size, e2.embedding_size)) =
      some (eEx.vocabulary_size, eEx.embedding_size) ∧
    EmbedID.loadCtorSizes eEx.W = (eEx.embedding_size, eEx.vocabulary_size) :=
  embed_roundtrip_amended eEx "model.emb" [] randEx2 (by decide)

/-- An LSTM carrying a stale hidden state from a prior step. -/
def lCex : LSTM := ⟨linExB, linEx, 1, none, some tenEx⟩

/-- Counterexample to C5 as stated: save/load does not persist the transient
states, so an LSTM holding a previous hidden state produces a different
forward output after the round trip (the lateral contribution is lost). -/
theorem lstm_save_load_state_cex :
    Option.map (fun l2 => (LSTM.call fEx l2 tenEx).2)
        (LSTM.load (LSTM.save lCex "m" []) "m" randEx) ≠
      some ((LSTM.call fEx lCex tenEx).2) := by
  decide

/-- C5 (amended): the GRU round trip restores the cell exactly (hence equal
sub-layer shapes and bit-for-bit equal forward outputs), and the `n_units`
placeholder passed by `GRU.load` is irrelevant; the LSTM round trip restores
the two sub-layers exactly but resets the transient states, so forward
outputs match bit-for-bit exactly for cells whose state is fresh. -/
theorem gru_lstm_save_load_amended :
    (∀ (g : GRU) (fname : String) (fs : FS) (rand : Nat → Nat → Nat → Mat),
      GRU.load (GRU.save g fname fs) fname rand = some g) ∧
    (∀ (n1 n2 : Nat) (p : GRUParams) (r1 r2 : Nat → Nat → Nat → Mat),
      GRU.init n1 (some p) r1 = GRU.init n2 (some p) r2) ∧
    (∀ (l : LSTM) (fname : String) (fs : FS) (rand : Nat → Nat → Nat → Mat),
      l.state_size = matRows l.upward.W / 4 →
      LSTM.load (LSTM.save l fname fs) fname rand = some (LSTM.reset_state l)) ∧
    (∀ (l : LSTM) (fname : String) (fs : FS) (rand : Nat → Nat → Nat → Mat)
        (f : LstmPrim) (x : Tensor),
      l.state_size = matRows l.upward.W / 4 → l.c = none → l.h = none →
      Option.map (fun l2 => LSTM.call f l2 x)
          (LSTM.load (LSTM.save l fname fs) fname rand) =
        some (LSTM.call f l x)) := by
  have h3 : ∀ (l : LSTM) (fname : String) (fs : FS) (rand : Nat → Nat → Nat → Mat),
      l.state_size = matRows l.upward.W / 4 →
      LSTM.load (LSTM.save l fname fs) fname rand = some (LSTM.reset_state l) := by
    intro l fname fs rand hss
    simp only [LSTM.save, LSTM.load, Linear.save, Linear.load, fsLookup,
      strAppend_left_inj]
    simp [LSTM.init, Except.toOption, LSTM.reset_state, ← hss]
  refine ⟨?_, ?_, h3, ?_⟩
  · intro g fname fs rand
    simp only [GRU.save, GRU.load, Linear.save, Linear.load, fsLookup,
      strAppend_left_inj]
    simp [GRU.init]
  · intro n1 n2 p r1 r2
    rcases p with ⟨wr, ur, wz, uz, w, u⟩
    rfl
  · intro l fname fs rand f x hss hc hh
    rw [h3 l fname fs rand hss]
    have hr : LSTM.reset_state l = l := by
      cases l
      simp only [LSTM.reset_state]
      simp_all
    rw [hr, Option.map]

/-- An LSTM in its freshly constructed (reset) condition. -/
def lExFresh : LSTM := ⟨linExB, linEx, 1, none, none⟩

/-- Witness for the amended C5 at a concrete fresh LSTM. -/
theorem gru_lstm_save_load_amended_witness :
    LSTM.load (LSTM.save lExFresh "m" []) "m" randEx =
      some (LSTM.reset_state lExFresh) ∧
    Option.map (fun l2 => LSTM.call fEx l2 tenEx)
        (LSTM.load (LSTM.save lExFresh "m" []) "m" randEx) =
      some (LSTM.call fEx lExFresh tenEx) :=
  ⟨gru_lstm_save_load_amended.2.2.1 lExFresh "m" [] randEx (by decide),
   gru_lstm_save_load_amended.2.2.2 lExFresh "m" [] randEx fEx tenEx
     (by decide) rfl rfl⟩

/-- C9: for every optimizer implementation under test, `setup` on the
non-link argument "xxx" fails with a `TypeError` whose message matches
"optimization target must be a link". -/
theorem optimizer_setup_rejects_nonlink (k : OptimizerKind) :
    Optimizer.setup k (SetupTarget.str "xxx") =
      Except.error ⟨true, "optimization target must be a link"⟩ := by
  cases k <;> rfl

end Chainer
